import Mathlib

/-!
Verification of the inflation-impact simulator's CPI comparison engine.

The program keeps a CPI time series sorted ascending by date, looks up the
latest CPI, the CPI nearest on or before a target date (falling back to the
earliest observation), and the mean CPI of a calendar year, and converts
user-entered amounts by the ratio formula `amount * cpi_to / cpi_from`.

Dates are embedded as month counts (`year * 12 + month index`, an integer),
which preserves the total order on timestamps, the calendar-year projection,
and the "minus ten years" offset used by the headline computation. CPI
values and money amounts are embedded as rationals. Indexing an empty frame
raises in the source and is embedded as an `Except`/`Option` returning the
corresponding typed error. The arithmetic itself is total in the source —
the divisors are numpy float64 scalars, and numpy float division by zero
yields inf/nan with a RuntimeWarning, never an exception — so the embedded
operations carry no zero-divisor error branch: they compute the exact
rational value, which is faithful wherever the divisor is non-zero (the
non-finite float results at an exactly-zero divisor have no rational
counterpart and are outside this embedding).
-/

namespace InflationApp

/-- Observation: one (date, CPI) data point of the series. -/
structure Obs where
  date : Int
  cpi : Rat
deriving DecidableEq, Repr

/-- Typed failures named by the spec. `EmptySeries` and `YearNotFound` are
produced by the code (an indexing raise, the year-not-available branch);
`DivisionByZero` is named by the spec's taxonomy but never produced — the
divisions are unguarded numpy float operations. -/
inductive Err where
  | EmptySeries
  | YearNotFound
  | DivisionByZero
deriving DecidableEq, Repr

/-- Build a date from a calendar year and a month index (0–11). -/
def mkDate (y : Int) (m : Nat) : Int := y * 12 + m

/-- Calendar year of a date (floor division by 12 months). -/
def yearOfDate (d : Int) : Int := Int.fdiv d 12

/-- The series is sorted ascending by date (`df.sort_values("Date")`). -/
def SortedDates (s : List Obs) : Prop :=
  s.Pairwise (fun a b => a.date ≤ b.date)

/-- Last row of the sorted frame: `df["CPI"].iloc[-1]` (line 51); indexing an
empty frame raises, embedded as the `EmptySeries` error. -/
def latest (s : List Obs) : Except Err Obs :=
  match s.getLast? with
  | some o => .ok o
  | none => .error .EmptySeries

/-- Lines 53–57: `df[df["Date"] <= target]["CPI"]`, last entry if the filter is
non-empty, else `df["CPI"].iloc[0]` (the earliest row; `none` on an empty
series, where the source would raise). -/
def nearest_on_or_before (s : List Obs) (d : Int) : Option Obs :=
  match (s.filter (fun o => decide (o.date ≤ d))).getLast? with
  | some o => some o
  | none => s.head?

/-- Lines 78–80: distinct years of the series (`unique`, first occurrences),
sorted descending, with the first (most recent) year dropped (`years[1:]`). -/
def years_for_selection (s : List Obs) : List Int :=
  (((s.map (fun o => yearOfDate o.date)).dedup).insertionSort (fun a b => b ≤ a)).tail

/-- Lines 83–86: if the year occurs in the series, the mean CPI of the rows of
that year, else the "year not available" error path. -/
def average_for_year (s : List Obs) (y : Int) : Except Err Rat :=
  if y ∈ s.map (fun o => yearOfDate o.date) then
    let l := s.filter (fun o => decide (yearOfDate o.date = y))
    .ok ((l.map Obs.cpi).sum / (l.length : Rat))
  else .error .YearNotFound

/-- The value conversion of lines 123 and 147: `amount * cpi_to / cpi_from`,
with no guard — the source divides numpy float64 scalars, which never raise.
The `Except` result type mirrors the spec's converter interface; the code
always yields a value, so the result is always `ok` (exact and faithful for
every non-zero `cpi_from`; the inf/nan float results at `cpi_from = 0` are
outside the rational embedding). -/
def convert (amount cpi_from cpi_to : Rat) : Except Err Rat :=
  .ok (amount * cpi_to / cpi_from)

/-- The percent change of line 59: `(vnew - vold) / vold * 100`, with no
guard — the source divides numpy float64 scalars, which never raise, so the
result is always `ok` (exact and faithful for every non-zero `vold`). -/
def percent_change (vnew vold : Rat) : Except Err Rat :=
  .ok ((vnew - vold) / vold * 100)

/-- Lines 122–123: the total of the category inputs converted to the past
year, `(sum(category_inputs.values()) * past_cpi_year) / latest_cpi`. -/
def total_past (inputs : List Rat) (past_cpi_year latest_cpi : Rat) : Rat :=
  inputs.sum * past_cpi_year / latest_cpi

/-- Line 147: one category amount converted to the past year. -/
def old_value (amount past_cpi_year latest_cpi : Rat) : Rat :=
  amount * past_cpi_year / latest_cpi

/-- Lines 51–59: the headline ten-year rate. Latest CPI is the last row
(raising on an empty frame, hence `EmptySeries`); the past CPI is the last
row dated on or before ten years (120 months) before the maximum date, or the
first row if no such row exists; the rate is `(latest - past) / past * 100`,
an unguarded float division. -/
def headline_rate (s : List Obs) : Except Err Rat :=
  match s.getLast? with
  | none => .error .EmptySeries
  | some lastObs =>
    let closest_past := s.filter (fun o => decide (o.date ≤ lastObs.date - 120))
    let past_cpi :=
      match closest_past.getLast? with
      | some o => o.cpi
      | none =>
        match s.head? with
        | some o => o.cpi
        | none => 0
    .ok ((lastObs.cpi - past_cpi) / past_cpi * 100)

/-- CPI of the latest observation, `latest().cpi`. -/
def latest_cpi (s : List Obs) : Except Err Rat :=
  match latest s with
  | .ok o => .ok o.cpi
  | .error e => .error e

/-- CPI `n` years before the latest observation via nearest-prior-or-earliest:
`nearest_on_or_before(latest().date - n years).cpi`. -/
def cpi_n_years_ago (s : List Obs) (n : Nat) : Except Err Rat :=
  match latest s with
  | .error e => .error e
  | .ok lastObs =>
    match nearest_on_or_before s (lastObs.date - 12 * (n : Int)) with
    | some o => .ok o.cpi
    | none => .error .EmptySeries

/-- A two-point demonstration series: (2015-01, 100) and (2024-01, 400). -/
def demoSeries : List Obs :=
  [⟨mkDate 2015 0, 100⟩, ⟨mkDate 2024 0, 400⟩]

/-- In a series sorted ascending by date, the last element is a member and has
the greatest date. -/
theorem sorted_getLast_max :
    ∀ {s : List Obs} {a : Obs}, s.Pairwise (fun x y => x.date ≤ y.date) →
      s.getLast? = some a → a ∈ s ∧ ∀ x ∈ s, x.date ≤ a.date
  | [], _, _, ha => by simp at ha
  | [b], a, _, ha => by
    simp only [List.getLast?_singleton, Option.some.injEq] at ha
    subst ha
    refine ⟨List.mem_singleton_self b, ?_⟩
    intro x hx
    rw [List.mem_singleton] at hx
    subst hx
    exact le_refl _
  | b :: c :: t, a, hs, ha => by
    rw [List.getLast?_cons_cons] at ha
    rw [List.pairwise_cons] at hs
    obtain ⟨hmem, hmax⟩ := sorted_getLast_max hs.2 ha
    refine ⟨List.mem_cons_of_mem b hmem, ?_⟩
    intro x hx
    rcases List.mem_cons.mp hx with hx | hx
    · subst hx
      exact hs.1 a hmem
    · exact hmax x hx

/-- In a series sorted ascending by date, the head is a member and has the
least date. -/
theorem sorted_head_min {s : List Obs} {a : Obs}
    (hs : s.Pairwise (fun x y => x.date ≤ y.date)) (ha : s.head? = some a) :
    a ∈ s ∧ ∀ x ∈ s, a.date ≤ x.date := by
  cases s with
  | nil => simp at ha
  | cons b t =>
    simp only [List.head?_cons, Option.some.injEq] at ha
    subst ha
    rw [List.pairwise_cons] at hs
    refine ⟨List.mem_cons_self b t, ?_⟩
    intro x hx
    rcases List.mem_cons.mp hx with hx | hx
    · subst hx; exact le_refl _
    · exact hs.1 x hx

/-- C1: the value conversion returns `amount * cpi_to / cpi_from` whenever
`cpi_from > 0`; in particular converting 60000 from CPI 400 to CPI 100 gives
15000; and both the total (lines 122–123) and each per-category amount
(line 147) are converted by exactly this formula. -/
theorem convert_formula (amount cpi_from cpi_to a p l : Rat) (inputs : List Rat)
    (hcf : 0 < cpi_from) (hl : 0 < l) :
    convert amount cpi_from cpi_to = .ok (amount * cpi_to / cpi_from) ∧
    convert 60000 400 100 = .ok 15000 ∧
    convert inputs.sum l p = .ok (total_past inputs p l) ∧
    convert a l p = .ok (old_value a p l) := by
  refine ⟨rfl, by norm_num [convert], ?_, ?_⟩
  · rw [convert, total_past]
  · rw [convert, old_value]

/-- Closed instance of `convert_formula` at concrete inputs. -/
theorem convert_formula_witness :
    convert 5 2 3 = .ok (5 * 3 / 2) ∧
    convert 60000 400 100 = .ok 15000 ∧
    convert ([10, 20] : List Rat).sum 4 6 = .ok (total_past [10, 20] 6 4) ∧
    convert 7 4 6 = .ok (old_value 7 6 4) :=
  convert_formula 5 2 3 7 6 4 [10, 20] (by norm_num) (by norm_num)

/-- C8: converting with equal source and target CPI is the identity. -/
theorem convert_identity (amount c : Rat) (hc : 0 < c) :
    convert amount c c = .ok amount := by
  rw [convert, mul_div_assoc, div_self hc.ne', mul_one]

/-- Closed instance of `convert_identity`. -/
theorem convert_identity_witness : convert 60000 250 250 = .ok 60000 :=
  convert_identity 60000 250 (by norm_num)

/-- C9: the total converted to the past equals the sum of the per-category
converted values, so the headline figure and the breakdown agree. -/
theorem total_breakdown_consistent (inputs : List Rat) (p l : Rat)
    (hp : 0 < p) (hl : 0 < l) :
    total_past inputs p l = (inputs.map (fun a => old_value a p l)).sum := by
  induction inputs with
  | nil => simp [total_past, old_value]
  | cons a t ih =>
    simp only [List.map_cons, List.sum_cons, ← ih]
    rw [total_past, total_past, old_value, List.sum_cons]
    ring

/-- Closed instance of `total_breakdown_consistent`. -/
theorem total_breakdown_consistent_witness :
    total_past [10000, 20000] 100 400 =
      (([10000, 20000] : List Rat).map (fun a => old_value a 100 400)).sum :=
  total_breakdown_consistent [10000, 20000] 100 400 (by norm_num) (by norm_num)

/-- C4 (amended): neither the conversion nor the percent change guards its
divisor or signals a typed `DivisionByZero` failure — for every non-zero
`cpi_from`, negative values included, conversion returns
`amount * cpi_to / cpi_from` and never an error, and for every non-zero
`value_old` the percent change returns
`(value_new - value_old) / value_old * 100` and never an error. -/
theorem conversion_unguarded (amount cpi_to vnew vold cf : Rat)
    (hcf : cf ≠ 0) (hold : vold ≠ 0) :
    convert amount cf cpi_to = .ok (amount * cpi_to / cf) ∧
    (∀ e, convert amount cf cpi_to ≠ .error e) ∧
    percent_change vnew vold = .ok ((vnew - vold) / vold * 100) ∧
    ∀ e, percent_change vnew vold ≠ .error e :=
  ⟨rfl, fun _ hc => Except.noConfusion hc, rfl, fun _ hc => Except.noConfusion hc⟩

/-- Closed instance of `conversion_unguarded` at a negative divisor. -/
theorem conversion_unguarded_witness :
    convert 60000 (-400) 100 = .ok (60000 * 100 / (-400)) ∧
    (∀ e, convert 60000 (-400) 100 ≠ .error e) ∧
    percent_change 400 100 = .ok ((400 - 100) / 100 * 100) ∧
    ∀ e, percent_change 400 100 ≠ .error e :=
  conversion_unguarded 60000 100 400 100 (-400) (by norm_num) (by norm_num)

/-- C4 counterexample: a non-positive (here negative) `cpi_from` does not
fail — the code divides and returns the sign-flipped amount instead of
reporting `DivisionByZero`. -/
theorem convert_negative_cpi_no_error :
    convert 60000 (-400) 100 = .ok (-15000) ∧
    convert 60000 (-400) 100 ≠ .error .DivisionByZero ∧
    ∀ e, convert 60000 (-400) 100 ≠ .error e := by
  have h : convert 60000 (-400) 100 = .ok (-15000) := by norm_num [convert]
  refine ⟨h, ?_, ?_⟩
  · rw [h]; intro hc; exact Except.noConfusion hc
  · intro e; rw [h]; intro hc; exact Except.noConfusion hc

/-- C2: on a non-empty sorted series, the nearest-on-or-before lookup returns
the observation with the greatest date at most the target when one exists, and
falls back to the earliest observation when every observation is later than
the target — it never fails merely because the target predates all data. -/
theorem nearest_on_or_before_spec (s : List Obs) (d : Int)
    (hs : SortedDates s) (hne : s ≠ []) :
    ((∃ o ∈ s, o.date ≤ d) →
      ∃ o, nearest_on_or_before s d = some o ∧ o ∈ s ∧ o.date ≤ d ∧
        ∀ o' ∈ s, o'.date ≤ d → o'.date ≤ o.date) ∧
    ((∀ o ∈ s, d < o.date) →
      ∃ o, nearest_on_or_before s d = some o ∧ s.head? = some o ∧
        ∀ o' ∈ s, o.date ≤ o'.date) := by
  have hs' : s.Pairwise (fun x y => x.date ≤ y.date) := hs
  constructor
  · rintro ⟨w, hw, hwd⟩
    have hwf : w ∈ s.filter (fun o => decide (o.date ≤ d)) :=
      List.mem_filter.mpr ⟨hw, by simpa using hwd⟩
    have hfne : s.filter (fun o => decide (o.date ≤ d)) ≠ [] :=
      List.ne_nil_of_mem hwf
    obtain ⟨o, ho⟩ : ∃ o, (s.filter (fun o => decide (o.date ≤ d))).getLast? = some o :=
      ⟨_, List.getLast?_eq_getLast_of_ne_nil hfne⟩
    have hpf : (s.filter (fun o => decide (o.date ≤ d))).Pairwise
        (fun x y => x.date ≤ y.date) := List.Pairwise.filter _ hs'
    obtain ⟨homem, hmax⟩ := sorted_getLast_max hpf ho
    have homem' := List.mem_filter.mp homem
    refine ⟨o, ?_, homem'.1, by simpa using homem'.2, ?_⟩
    · rw [nearest_on_or_before, ho]
    · intro o' ho' hod
      exact hmax o' (List.mem_filter.mpr ⟨ho', by simpa using hod⟩)
  · intro hall
    have hfe : s.filter (fun o => decide (o.date ≤ d)) = [] :=
      List.filter_eq_nil_iff.mpr (fun o ho => by simpa using not_le.mpr (hall o ho))
    obtain ⟨b, hb⟩ : ∃ b, s.head? = some b := by
      cases s with
      | nil => exact absurd rfl hne
      | cons b t => exact ⟨b, rfl⟩
    obtain ⟨hbm, hbmin⟩ := sorted_head_min hs' hb
    refine ⟨b, ?_, hb, hbmin⟩
    rw [nearest_on_or_before, hfe, List.getLast?_nil]
    exact hb

/-- Closed instance of `nearest_on_or_before_spec`: a target between the two
demonstration observations resolves to the earlier one, and a target before
both falls back to the earliest. -/
theorem nearest_on_or_before_spec_witness :
    (∃ o, nearest_on_or_before demoSeries (mkDate 2020 0) = some o ∧
      o ∈ demoSeries ∧ o.date ≤ mkDate 2020 0 ∧
      ∀ o' ∈ demoSeries, o'.date ≤ mkDate 2020 0 → o'.date ≤ o.date) ∧
    (∃ o, nearest_on_or_before demoSeries (mkDate 2010 0) = some o ∧
      demoSeries.head? = some o ∧ ∀ o' ∈ demoSeries, o.date ≤ o'.date) :=
  ⟨(nearest_on_or_before_spec demoSeries (mkDate 2020 0)
      (by decide : demoSeries.Pairwise (fun x y => x.date ≤ y.date)) (by decide)).1
      ⟨⟨mkDate 2015 0, 100⟩, by decide, by decide⟩,
    (nearest_on_or_before_spec demoSeries (mkDate 2010 0)
      (by decide : demoSeries.Pairwise (fun x y => x.date ≤ y.date)) (by decide)).2
      (by decide)⟩

/-- C5: on a non-empty sorted series, `latest` returns the observation with
the maximum date; on the empty series, `latest` and every query built on it
(the latest CPI, the n-years-ago CPI, the startup headline computation)
return the `EmptySeries` error. -/
theorem latest_spec (s : List Obs) (hs : SortedDates s) (hne : s ≠ []) :
    (∃ o, latest s = .ok o ∧ o ∈ s ∧ ∀ o' ∈ s, o'.date ≤ o.date) ∧
    latest ([] : List Obs) = .error .EmptySeries ∧
    latest_cpi ([] : List Obs) = .error .EmptySeries ∧
    (∀ n, cpi_n_years_ago ([] : List Obs) n = .error .EmptySeries) ∧
    headline_rate ([] : List Obs) = .error .EmptySeries := by
  refine ⟨?_, rfl, rfl, fun n => rfl, rfl⟩
  have hs' : s.Pairwise (fun x y => x.date ≤ y.date) := hs
  obtain ⟨o, ho⟩ : ∃ o, s.getLast? = some o :=
    ⟨_, List.getLast?_eq_getLast_of_ne_nil hne⟩
  obtain ⟨hm, hmax⟩ := sorted_getLast_max hs' ho
  refine ⟨o, ?_, hm, hmax⟩
  rw [latest, ho]

/-- Closed instance of `latest_spec` on the demonstration series. -/
theorem latest_spec_witness :
    ∃ o, latest demoSeries = .ok o ∧ o ∈ demoSeries ∧
      ∀ o' ∈ demoSeries, o'.date ≤ o.date :=
  (latest_spec demoSeries
    (by decide : demoSeries.Pairwise (fun x y => x.date ≤ y.date)) (by decide)).1

/-- C3: the per-year average is the arithmetic mean (sum over count) of the
CPI values of exactly the observations whose calendar year equals `y` when at
least one exists, and the `YearNotFound` error path when none does. -/
theorem average_for_year_spec (s : List Obs) (y : Int) :
    ((∃ o ∈ s, yearOfDate o.date = y) →
      average_for_year s y =
        .ok (((s.filter (fun o => decide (yearOfDate o.date = y))).map Obs.cpi).sum /
          ((s.filter (fun o => decide (yearOfDate o.date = y))).length : Rat))) ∧
    ((∀ o ∈ s, yearOfDate o.date ≠ y) →
      average_for_year s y = .error .YearNotFound) := by
  constructor
  · rintro ⟨o, ho, hy⟩
    have hmem : y ∈ s.map (fun o => yearOfDate o.date) := List.mem_map.mpr ⟨o, ho, hy⟩
    rw [average_for_year, if_pos hmem]
  · intro hall
    have hmem : y ∉ s.map (fun o => yearOfDate o.date) := by
      intro hc
      obtain ⟨o, ho, hy⟩ := List.mem_map.mp hc
      exact hall o ho hy
    rw [average_for_year, if_neg hmem]

/-- Closed instance of `average_for_year_spec`: year 2015 is present in the
demonstration series, year 1999 is absent. -/
theorem average_for_year_spec_witness :
    average_for_year demoSeries 2015 =
      .ok (((demoSeries.filter (fun o => decide (yearOfDate o.date = 2015))).map
          Obs.cpi).sum /
        ((demoSeries.filter (fun o => decide (yearOfDate o.date = 2015))).length : Rat)) ∧
    average_for_year demoSeries 1999 = .error .YearNotFound :=
  ⟨(average_for_year_spec demoSeries 2015).1 ⟨⟨mkDate 2015 0, 100⟩, by decide, by decide⟩,
    (average_for_year_spec demoSeries 1999).2 (by decide)⟩

/-- C6: the comparison-year options are the distinct calendar years of the
series, strictly descending, with the most recent year excluded: there is a
year `ymax`, present in the series and bounding every year of the series,
such that the offered years are exactly the years present other than `ymax`. -/
theorem years_for_selection_spec (s : List Obs) (hne : s ≠ []) :
    (years_for_selection s).Pairwise (fun a b => b < a) ∧
    ∃ ymax, (∃ o ∈ s, yearOfDate o.date = ymax) ∧
      (∀ o ∈ s, yearOfDate o.date ≤ ymax) ∧
      ∀ y, y ∈ years_for_selection s ↔
        (∃ o ∈ s, yearOfDate o.date = y) ∧ y ≠ ymax := by
  have key : ∀ a : Int,
      a ∈ ((s.map (fun o => yearOfDate o.date)).dedup).insertionSort (fun x y => y ≤ x) ↔
        ∃ o ∈ s, yearOfDate o.date = a := by
    intro a
    rw [(List.perm_insertionSort _ _).mem_iff, List.mem_dedup, List.mem_map]
  have hsorted : List.Sorted (fun x y => y ≤ x)
      (((s.map (fun o => yearOfDate o.date)).dedup).insertionSort (fun x y => y ≤ x)) :=
    List.sorted_insertionSort _ _
  have hnodup : (((s.map (fun o => yearOfDate o.date)).dedup).insertionSort
      (fun x y => y ≤ x)).Nodup :=
    (List.perm_insertionSort _ _).nodup_iff.mpr (List.nodup_dedup _)
  obtain ⟨o0, ho0⟩ : ∃ o, o ∈ s := by
    cases s with
    | nil => exact absurd rfl hne
    | cons b t => exact ⟨b, List.mem_cons_self b t⟩
  simp only [years_for_selection]
  cases hsl : ((s.map (fun o => yearOfDate o.date)).dedup).insertionSort (fun x y => y ≤ x) with
  | nil =>
    have : yearOfDate o0.date ∈
        ((s.map (fun o => yearOfDate o.date)).dedup).insertionSort (fun x y => y ≤ x) :=
      (key _).mpr ⟨o0, ho0, rfl⟩
    rw [hsl] at this
    simp at this
  | cons y0 t =>
    rw [hsl] at hsorted hnodup
    have key' : ∀ a : Int, a ∈ y0 :: t ↔ ∃ o ∈ s, yearOfDate o.date = a :=
      fun a => hsl ▸ key a
    rw [List.sorted_cons] at hsorted
    rw [List.nodup_cons] at hnodup
    have ht_pairwise : t.Pairwise (fun a b => b < a) :=
      (hsorted.2.and hnodup.2).imp (fun h => h.1.lt_of_ne (Ne.symm h.2))
    refine ⟨by simpa using ht_pairwise, y0, (key' y0).mp (List.mem_cons_self y0 t), ?_, ?_⟩
    · intro o ho
      have hm : yearOfDate o.date ∈ y0 :: t := (key' _).mpr ⟨o, ho, rfl⟩
      rcases List.mem_cons.mp hm with hm | hm
      · exact le_of_eq hm
      · exact hsorted.1 _ hm
    · intro y
      simp only [List.tail_cons]
      constructor
      · intro hyt
        refine ⟨(key' y).mp (List.mem_cons_of_mem y0 hyt), ?_⟩
        intro hcontra
        exact hnodup.1 (hcontra ▸ hyt)
      · rintro ⟨hex, hy0⟩
        rcases List.mem_cons.mp ((key' y).mpr hex) with h | h
        · exact absurd h hy0
        · exact h

/-- Closed instance of `years_for_selection_spec` on the demonstration
series: the only offered year is 2015, with 2024 as the excluded anchor. -/
theorem years_for_selection_spec_witness :
    (years_for_selection demoSeries).Pairwise (fun a b => b < a) ∧
    ∃ ymax, (∃ o ∈ demoSeries, yearOfDate o.date = ymax) ∧
      (∀ o ∈ demoSeries, yearOfDate o.date ≤ ymax) ∧
      ∀ y, y ∈ years_for_selection demoSeries ↔
        (∃ o ∈ demoSeries, yearOfDate o.date = y) ∧ y ≠ ymax :=
  years_for_selection_spec demoSeries (by decide)

/-- C10: every year offered for comparison is a year of some observation, so
the membership check on the selected year succeeds: the filter of the series
to that year is non-empty and the per-year average returns a value, never the
"year not available" error branch. -/
theorem comparison_year_available (s : List Obs) (y : Int)
    (hy : y ∈ years_for_selection s) :
    (∃ o ∈ s, yearOfDate o.date = y) ∧
    s.filter (fun o => decide (yearOfDate o.date = y)) ≠ [] ∧
    ∃ q, average_for_year s y = .ok q := by
  have hy' : y ∈ ((s.map (fun o => yearOfDate o.date)).dedup).insertionSort
      (fun x y => y ≤ x) := List.mem_of_mem_tail hy
  rw [(List.perm_insertionSort _ _).mem_iff, List.mem_dedup, List.mem_map] at hy'
  obtain ⟨o, ho, hyo⟩ := hy'
  have hmem : y ∈ s.map (fun o => yearOfDate o.date) := List.mem_map.mpr ⟨o, ho, hyo⟩
  refine ⟨⟨o, ho, hyo⟩, List.ne_nil_of_mem (List.mem_filter.mpr ⟨ho, by simpa using hyo⟩), ?_⟩
  rw [average_for_year, if_pos hmem]
  exact ⟨_, rfl⟩

/-- Closed instance of `comparison_year_available` at the offered year 2015. -/
theorem comparison_year_available_witness :
    (∃ o ∈ demoSeries, yearOfDate o.date = 2015) ∧
    demoSeries.filter (fun o => decide (yearOfDate o.date = 2015)) ≠ [] ∧
    ∃ q, average_for_year demoSeries 2015 = .ok q :=
  comparison_year_available demoSeries 2015 (by decide)

/-- C7: the headline rate computed by lines 51–59 is the percent change from
the CPI ten years before the latest observation (resolved by
nearest-prior-or-earliest) to the latest CPI; on the series
[(2015-01, 100), (2024-01, 400)] the latest CPI is 400, the ten-years-ago
lookup falls back to 100, and the headline rate is 300%. -/
theorem headline_rate_spec :
    (∀ (s : List Obs) (lc pc : Rat),
      latest_cpi s = .ok lc → cpi_n_years_ago s 10 = .ok pc →
      headline_rate s = percent_change lc pc) ∧
    headline_rate demoSeries = .ok 300 ∧
    latest_cpi demoSeries = .ok 400 ∧
    cpi_n_years_ago demoSeries 10 = .ok 100 := by
  refine ⟨?_, by norm_num [headline_rate, demoSeries, mkDate], rfl, rfl⟩
  intro s lc pc h1 h2
  cases hgl : s.getLast? with
  | none =>
    rw [latest_cpi, latest, hgl] at h1
    exact absurd h1 (by simp)
  | some lastObs =>
    simp only [latest_cpi, latest, hgl, Except.ok.injEq] at h1
    simp only [cpi_n_years_ago, latest, hgl, nearest_on_or_before] at h2
    have h120 : (12 * ((10 : Nat) : Int)) = 120 := by norm_num
    rw [h120] at h2
    cases hfl : (s.filter (fun o => decide (o.date ≤ lastObs.date - 120))).getLast? with
    | some o =>
      rw [hfl] at h2
      simp only [Except.ok.injEq] at h2
      simp only [headline_rate, hgl, hfl, percent_change]
      rw [h1, h2]
    | none =>
      rw [hfl] at h2
      cases hh : s.head? with
      | none => rw [hh] at h2; exact absurd h2 (by simp)
      | some o =>
        rw [hh] at h2
        simp only [Except.ok.injEq] at h2
        simp only [headline_rate, hgl, hfl, hh, percent_change]
        rw [h1, h2]

/-- Closed instance of `headline_rate_spec` on the demonstration series. -/
theorem headline_rate_spec_witness :
    headline_rate demoSeries = percent_change 400 100 :=
  headline_rate_spec.1 demoSeries 400 100 headline_rate_spec.2.2.1 headline_rate_spec.2.2.2

end InflationApp
